import Mathlib

/-!
Verification of the nodelocaldns admission controller's decision engine.

This file shallowly embeds the Go sources of the webhook: the pod data
model, the DNS injection policy (injectDNSConfig), the patch codec
(generateJSONPatch), the two variants of the request-level orchestrator
(processAdmissionRequest: the variant without a start-time parameter,
embedded in namespace V0, and the variant with one that server.go
invokes, embedded in namespace V1), and the transport-level validation
of HandleInject / parseAdmissionReview from server.go.

JSON (un)marshalling is external library code; it is embedded abstractly:
a raw byte payload is represented by the outcome of unmarshalling it
(either a well-formed pod or a malformed payload carrying the decoder's
error text), and marshalling of in-memory patch/response values, which
cannot fail on these types, is represented by the value itself.
-/

namespace NodeLocalDNS

/-- corev1.DNSNone -/
def dnsNone : String := "None"

/-- corev1.DNSClusterFirstWithHostNet -/
def dnsClusterFirstWithHostNet : String := "ClusterFirstWithHostNet"

/-- admissionv1.Create -/
def opCreate : String := "CREATE"

/-- admissionv1.Update -/
def opUpdate : String := "UPDATE"

/-- admissionv1.PatchTypeJSONPatch -/
def patchTypeJSONPatch : String := "JSONPatch"

/-- config.go: DNSOption, a resolver option name/value pair. -/
structure DNSOption where
  name : String
  value : String
deriving DecidableEq, Repr

/-- config.go: DNSConfig, the DNS configuration to be injected into pods. -/
structure DNSConfig where
  nameservers : List String
  searches : List String
  options : List DNSOption
deriving DecidableEq, Repr

/-- corev1.PodDNSConfigOption; Value is a *string in Go, hence Option. -/
structure PodDNSConfigOption where
  name : String
  value : Option String
deriving DecidableEq, Repr

/-- corev1.PodDNSConfig. -/
structure PodDNSConfig where
  nameservers : List String
  searches : List String
  options : List PodDNSConfigOption
deriving DecidableEq, Repr

/-- The part of corev1.PodSpec the webhook reads or writes:
DNSPolicy (a typed string in Go), DNSConfig (a nullable pointer),
and the HostNetwork flag. -/
structure PodSpec where
  dnsPolicy : String
  dnsConfig : Option PodDNSConfig
  hostNetwork : Bool
deriving DecidableEq, Repr

/-- The part of corev1.Pod the webhook reads or writes. `nspace` embeds
the Namespace metadata field (namespace is a reserved word in Lean). -/
structure Pod where
  name : String
  nspace : String
  uid : String
  spec : PodSpec
deriving DecidableEq, Repr

/-- A raw serialized object (runtime.RawExtension.Raw), embedded by the
outcome of json.Unmarshal on it: either a well-formed pod payload or a
malformed payload carrying the decoder's error text. A nil Raw slice is
represented by `none` at the use sites (`Option RawObject`). -/
inductive RawObject where
  | malformed : String → RawObject
  | wellFormed : Pod → RawObject
deriving DecidableEq, Repr

/-- admissionv1.AdmissionRequest: the fields the webhook reads.
`kind` is req.Kind.Kind, `resource` is req.Resource.Resource,
`object` is req.Object.Raw and `oldObject` is req.OldObject.Raw. -/
structure AdmissionRequest where
  uid : String
  kind : String
  resource : String
  operation : String
  nspace : String
  object : Option RawObject
  oldObject : Option RawObject
deriving DecidableEq, Repr

/-- metav1.Status result carried on a denial. -/
structure StatusResult where
  code : Nat
  message : String
deriving DecidableEq, Repr

/-- A single JSON patch operation's value: either a plain string (the
DNS policy) or a whole PodDNSConfig. -/
inductive PatchValue where
  | str : String → PatchValue
  | config : PodDNSConfig → PatchValue
deriving DecidableEq, Repr

/-- One JSON patch operation: op, path, value. -/
structure PatchOp where
  op : String
  path : String
  value : PatchValue
deriving DecidableEq, Repr

/-- admissionv1.AdmissionResponse: the fields the webhook sets. The
patch bytes are embedded as the list of operations they serialize. -/
structure AdmissionResponse where
  uid : String
  allowed : Bool
  result : Option StatusResult := none
  patch : Option (List PatchOp) := none
  patchType : Option String := none
deriving DecidableEq, Repr

/-- config.go: Config. config.go itself declares NodeLocalDNSAddress,
SearchDomains, DNSOptions and ClusterDNSAddress; the part_000 variant of
processAdmissionRequest additionally reads a ClusterDomain field from
the server's config, included here for that variant. -/
structure Config where
  nodeLocalDNSAddress : String
  searchDomains : List String
  dnsOptions : List DNSOption
  clusterDNSAddress : String
  clusterDomain : String
deriving DecidableEq, Repr

/-- createErrorResponse (identical in both webhook variants): an
admission response that denies the request with code 400. -/
def createErrorResponse (uid : String) (message : String) : AdmissionResponse :=
  { uid := uid
    allowed := false
    result := some { code := 400, message := message } }

/-- injectDNSConfig (identical in both webhook variants). The Go
function takes a *corev1.Pod, mutates it in place and returns an error;
it is embedded in state-passing style: the `Option Pod` argument is the
pointer (none = nil), and on success the returned `Option Pod` is the
pointed-to value after the call. Skip conditions, in source order:
nil pod or pre-existing DNSConfig; DNSPolicy None; host network without
the DNSClusterFirstWithHostNet policy. Otherwise the policy is set to
None and a fresh PodDNSConfig is attached, copying nameservers,
searches, and options (each option's value copied into a fresh pointer). -/
def injectDNSConfig (pod : Option Pod) (dnsConfig : DNSConfig) :
    Except String (Option Pod) :=
  match pod with
  | none => .ok none
  | some p =>
    if p.spec.dnsConfig.isSome then .ok (some p)
    else if p.spec.dnsPolicy = dnsNone then .ok (some p)
    else if p.spec.hostNetwork ∧ p.spec.dnsPolicy ≠ dnsClusterFirstWithHostNet then
      .ok (some p)
    else
      let podDNSConfig : PodDNSConfig :=
        { nameservers := dnsConfig.nameservers
          searches := dnsConfig.searches
          options := dnsConfig.options.map fun opt =>
            { name := opt.name, value := some opt.value } }
      .ok (some { p with spec :=
        { p.spec with dnsPolicy := dnsNone, dnsConfig := some podDNSConfig } })

/-- generateJSONPatch (identical in both webhook variants). Emits the
replace op at /spec/dnsPolicy whose value is the literal
string(corev1.DNSNone), then, if the modified pod carries a non-nil
DNSConfig, the add op at /spec/dnsConfig with that config. json.Marshal
of these in-memory values cannot fail, so the error channel is always ok. -/
def generateJSONPatch (original modified : Pod) : Except String (List PatchOp) :=
  let patches : List PatchOp :=
    [{ op := "replace", path := "/spec/dnsPolicy", value := .str dnsNone }]
  let patches :=
    match modified.spec.dnsConfig with
    | some cfg => patches ++ [{ op := "add", path := "/spec/dnsConfig", value := .config cfg }]
    | none => patches
  .ok patches

/-- json.Unmarshal of a raw pod payload as part_000 performs it
directly on req.Object.Raw / req.OldObject.Raw: a nil slice fails with
the decoder's end-of-input error. -/
def unmarshalPod (raw : Option RawObject) : Except String Pod :=
  match raw with
  | none => .error "unexpected end of JSON input"
  | some (.malformed e) => .error e
  | some (.wellFormed p) => .ok p

/-- The shared tail of both processAdmissionRequest variants: generate
the JSON patch between the original pod and the working copy and attach
it, with the JSONPatch type tag, to the allow response (a
patch-serialization failure would be a 400 denial, but cannot occur). -/
def finishPatch (req : AdmissionRequest) (pod podCopy : Pod) : AdmissionResponse :=
  match generateJSONPatch pod podCopy with
  | .error e => createErrorResponse req.uid ("Failed to generate patch: " ++ e)
  | .ok patch =>
    { uid := req.uid, allowed := true
      patch := some patch, patchType := some patchTypeJSONPatch }

namespace V0

/-- The search-domain list the part_000 Create branch derives:
pod-namespace.svc.clusterDomain, svc.clusterDomain, clusterDomain. -/
def domains (s : Config) (pod : Pod) : List String :=
  [pod.nspace ++ ".svc." ++ s.clusterDomain,
   "svc." ++ s.clusterDomain,
   s.clusterDomain]

/-- The DNSConfig the part_000 Create branch builds: node-local address
then cluster DNS address, the derived search domains, and the
configured resolver options. -/
def dnsConfigFor (s : Config) (pod : Pod) : DNSConfig :=
  { nameservers := [s.nodeLocalDNSAddress, s.clusterDNSAddress]
    searches := domains s pod
    options := s.dnsOptions }

/-- processAdmissionRequest, part_000 variant (no start-time parameter):
kind/resource guard, unmarshal of the new object, then a switch on the
operation: Create derives the search domains from the pod's namespace
and the config's cluster domain and injects; Update unmarshals the old
object and resets the working copy's DNSConfig and DNSPolicy to the old
pod's values; any other operation returns the base allow response.
Finally the patch from generateJSONPatch(pod, podCopy) is attached. -/
def processAdmissionRequest (s : Config) (req : AdmissionRequest) : AdmissionResponse :=
  let response : AdmissionResponse := { uid := req.uid, allowed := true }
  if req.kind ≠ "Pod" ∨ req.resource ≠ "pods" then response
  else
    match unmarshalPod req.object with
    | .error e => createErrorResponse req.uid ("Failed to parse pod: " ++ e)
    | .ok pod =>
      let podCopy := pod
      if req.operation = opCreate then
        match injectDNSConfig (some podCopy) (dnsConfigFor s pod) with
        | .error e =>
          createErrorResponse req.uid ("Failed to inject DNS configuration: " ++ e)
        | .ok newCopy => finishPatch req pod (newCopy.getD podCopy)
      else if req.operation = opUpdate then
        match unmarshalPod req.oldObject with
        | .error e => createErrorResponse req.uid ("Failed to parse pod: " ++ e)
        | .ok oldPod =>
          finishPatch req pod
            { podCopy with spec :=
              { podCopy.spec with
                  dnsConfig := oldPod.spec.dnsConfig
                  dnsPolicy := oldPod.spec.dnsPolicy } }
      else response

end V0

/-- parsePodFromRequest (part_001 variant): nil raw object is an
explicit error; unmarshal failure is wrapped; a pod with an empty
namespace inherits the request's namespace when that is non-empty. -/
def parsePodFromRequest (req : AdmissionRequest) : Except String Pod :=
  match req.object with
  | none => .error "admission request object is nil"
  | some (.malformed e) => .error ("failed to unmarshal pod object: " ++ e)
  | some (.wellFormed pod) =>
    .ok (if pod.nspace = "" ∧ req.nspace ≠ "" then { pod with nspace := req.nspace } else pod)

/-- createDNSConfig (part_001 variant): nameservers are the node-local
address followed by the cluster DNS address when the latter is
non-empty; searches and options come straight from the config. -/
def createDNSConfig (webhookConfig : Config) : DNSConfig :=
  let nameservers :=
    if webhookConfig.clusterDNSAddress ≠ "" then
      [webhookConfig.nodeLocalDNSAddress, webhookConfig.clusterDNSAddress]
    else [webhookConfig.nodeLocalDNSAddress]
  { nameservers := nameservers
    searches := webhookConfig.searchDomains
    options := webhookConfig.dnsOptions }

namespace V1

/-- processAdmissionRequest, part_001 variant (the one server.go calls;
its start-time parameter is used only for logging and is omitted):
kind/resource guard, then operation guard (before any parsing), then
parsePodFromRequest, injectDNSConfig on a working copy, and
generateJSONPatch(pod, podCopy) attached to the allow response. -/
def processAdmissionRequest (s : Config) (req : AdmissionRequest) : AdmissionResponse :=
  let response : AdmissionResponse := { uid := req.uid, allowed := true }
  if req.kind ≠ "Pod" ∨ req.resource ≠ "pods" then response
  else if req.operation ≠ opCreate ∧ req.operation ≠ opUpdate then response
  else
    match parsePodFromRequest req with
    | .error e => createErrorResponse req.uid ("Failed to parse pod: " ++ e)
    | .ok pod =>
      let dnsConfig := createDNSConfig s
      let podCopy := pod
      match injectDNSConfig (some podCopy) dnsConfig with
      | .error e =>
        createErrorResponse req.uid ("Failed to inject DNS configuration: " ++ e)
      | .ok newCopy => finishPatch req pod (newCopy.getD podCopy)

end V1

/-- The body of an inbound /inject HTTP request, embedded by the
outcome of json.Unmarshal into an AdmissionReview envelope: either the
bytes do not parse, or they parse to an envelope whose inner Request
pointer is `none` (nil) or carries an AdmissionRequest. -/
inductive ReviewBody where
  | malformed : ReviewBody
  | review : Option AdmissionRequest → ReviewBody
deriving DecidableEq, Repr

/-- The transport-level view of an inbound HTTP request to /inject. -/
structure HttpRequest where
  method : String
  contentType : String
  body : ReviewBody
deriving DecidableEq, Repr

/-- The error body writeErrorResponse encodes:
a JSON object of shape error: (code, message). -/
structure ErrorBody where
  code : Nat
  message : String
deriving DecidableEq, Repr

/-- The observable outcome of HandleInject: either a non-200 HTTP error
with an ErrorBody (written by writeErrorResponse), or HTTP 200 with an
AdmissionReview envelope wrapping the engine's response. -/
inductive InjectOutcome where
  | httpError : Nat → ErrorBody → InjectOutcome
  | admitted : AdmissionResponse → InjectOutcome
deriving DecidableEq, Repr

/-- server.go writeErrorResponse: writes the given status code and an
error body whose code field repeats the status code. -/
def writeErrorResponse (statusCode : Nat) (message : String) : InjectOutcome :=
  .httpError statusCode { code := statusCode, message := message }

/-- server.go parseAdmissionReview: unmarshal the body, then require a
non-nil inner request with a non-empty UID. -/
def parseAdmissionReview (body : ReviewBody) : Except String AdmissionRequest :=
  match body with
  | .malformed => .error "failed to unmarshal admission review"
  | .review none => .error "admission review request is nil"
  | .review (some req) =>
    if req.uid = "" then .error "admission review request UID is empty"
    else .ok req

/-- server.go HandleInject: method must be POST (405 otherwise),
content type must be application/json (400 otherwise), the body must
parse as a review envelope (400 otherwise); only then is the decision
engine (the V1 processAdmissionRequest) invoked, and its response is
returned with HTTP 200. The response marshalling step cannot fail on
these in-memory values and is elided. -/
def HandleInject (s : Config) (r : HttpRequest) : InjectOutcome :=
  if r.method ≠ "POST" then
    writeErrorResponse 405 "Only POST method is allowed"
  else if r.contentType ≠ "application/json" then
    writeErrorResponse 400 "Content-Type must be application/json"
  else
    match parseAdmissionReview r.body with
    | .error e => writeErrorResponse 400 ("Failed to parse admission review: " ++ e)
    | .ok req => .admitted (V1.processAdmissionRequest s req)

/-! ## Helper lemmas -/

/-- injectDNSConfig never takes its error channel. -/
theorem injectDNSConfig_ne_error (pod : Option Pod) (cfg : DNSConfig) (e : String) :
    injectDNSConfig pod cfg ≠ .error e := by
  cases pod with
  | none => simp [injectDNSConfig]
  | some p =>
    simp only [injectDNSConfig]
    split_ifs <;> simp

/-- generateJSONPatch never takes its error channel. -/
theorem generateJSONPatch_ne_error (a b : Pod) (e : String) :
    generateJSONPatch a b ≠ .error e := by
  unfold generateJSONPatch
  cases b.spec.dnsConfig <;> simp

/-- When any skip condition holds, injectDNSConfig returns the pod unchanged. -/
theorem injectDNSConfig_skip (p : Pod) (cfg : DNSConfig)
    (h : p.spec.dnsConfig.isSome = true ∨ p.spec.dnsPolicy = dnsNone ∨
         (p.spec.hostNetwork = true ∧ p.spec.dnsPolicy ≠ dnsClusterFirstWithHostNet)) :
    injectDNSConfig (some p) cfg = .ok (some p) := by
  simp only [injectDNSConfig]
  split_ifs with h1 h2 h3
  · rfl
  · rfl
  · rfl
  · rcases h with h | h | h
    · exact absurd h h1
    · exact absurd h h2
    · exact absurd h h3

/-! ## Fixtures for concrete evaluations -/

/-- A configuration with the defaults of config.go and cluster domain cluster.local. -/
def cfgW : Config :=
  { nodeLocalDNSAddress := "169.254.20.10"
    searchDomains := ["default.svc.cluster.local", "svc.cluster.local", "cluster.local"]
    dnsOptions := [{ name := "ndots", value := "3" }]
    clusterDNSAddress := "10.96.0.10"
    clusterDomain := "cluster.local" }

/-- The prior (old) pod of the C1 failing input: DNS policy ClusterFirst, no DNS config. -/
def c1OldPod : Pod :=
  { name := "p", nspace := "default", uid := "pu"
    spec := { dnsPolicy := "ClusterFirst", dnsConfig := none, hostNetwork := false } }

/-- The new pod of the C1 failing input: DNS policy drifted to Default. -/
def c1NewPod : Pod :=
  { name := "p", nspace := "default", uid := "pu"
    spec := { dnsPolicy := "Default", dnsConfig := none, hostNetwork := false } }

/-- The C1 failing input: an Update request whose old and new pods differ in DNS policy. -/
def c1Req : AdmissionRequest :=
  { uid := "u1", kind := "Pod", resource := "pods", operation := opUpdate
    nspace := "default"
    object := some (.wellFormed c1NewPod)
    oldObject := some (.wellFormed c1OldPod) }

/-- An opt-out pod for C2: host network with a policy other than
ClusterFirstWithHostNet, no DNS config. -/
def c2OptOutPod : Pod :=
  { name := "q", nspace := "ns1", uid := "qu"
    spec := { dnsPolicy := "ClusterFirst", dnsConfig := none, hostNetwork := true } }

/-- A pre-existing DNS config for C2. -/
def c2PreCfg : PodDNSConfig :=
  { nameservers := ["10.0.0.2"], searches := [], options := [] }

/-- A pod for C2 that already carries a non-null DNS config. -/
def c2PreCfgPod : Pod :=
  { name := "r", nspace := "ns1", uid := "ru"
    spec := { dnsPolicy := "ClusterFirst", dnsConfig := some c2PreCfg, hostNetwork := false } }

/-! ## Claim theorems -/

/-- Claim C1 (code bug evaluated at a failing input): for the Update
request c1Req, whose old and new pods both deserialize and whose DNS
policies differ (old ClusterFirst, new Default), the part_000
processAdmissionRequest emits a patch whose single DNS-policy replace
operation carries the literal value "None", which is not the old
object's policy value — contradicting the claim (and the code's own
comment that the generated patch will have no effect). -/
theorem update_patch_forces_none_policy :
    c1OldPod.spec.dnsPolicy ≠ c1NewPod.spec.dnsPolicy ∧
    (V0.processAdmissionRequest cfgW c1Req).patch =
      some [{ op := "replace", path := "/spec/dnsPolicy", value := .str "None" }] ∧
    dnsNone ≠ c1OldPod.spec.dnsPolicy := by
  refine ⟨by decide, ?_, by decide⟩
  rfl

/-- Claim C2 (code bug evaluated at a failing input): generateJSONPatch
hardcodes the replace value to the literal "None" instead of the
modified pod's policy: for the opt-out pod c2OptOutPod (host network,
policy ClusterFirst) the patch's single op carries "None", not the
pod's (original = modified) policy; and for c2PreCfgPod, which already
carries a non-null DNS config, the patch has a second add operation, so
an opt-out pod does not get "zero operations beyond the replace op". -/
theorem generateJSONPatch_hardcodes_none :
    generateJSONPatch c2OptOutPod c2OptOutPod =
      .ok [{ op := "replace", path := "/spec/dnsPolicy", value := .str "None" }] ∧
    dnsNone ≠ c2OptOutPod.spec.dnsPolicy ∧
    generateJSONPatch c2PreCfgPod c2PreCfgPod =
      .ok [{ op := "replace", path := "/spec/dnsPolicy", value := .str "None" },
           { op := "add", path := "/spec/dnsConfig", value := .config c2PreCfg }] := by
  refine ⟨?_, by decide, ?_⟩ <;> rfl

/-- Claim C6: whenever any skip condition holds — a pre-existing DNS
config, DNS policy None, or host network with a policy other than
ClusterFirstWithHostNet — injectDNSConfig leaves the pod entirely
unchanged: the post-state equals the input pod and no error occurs. -/
theorem injectDNSConfig_skip_noop (p : Pod) (cfg : DNSConfig)
    (h : p.spec.dnsConfig.isSome = true ∨ p.spec.dnsPolicy = dnsNone ∨
         (p.spec.hostNetwork = true ∧ p.spec.dnsPolicy ≠ dnsClusterFirstWithHostNet)) :
    injectDNSConfig (some p) cfg = .ok (some p) :=
  injectDNSConfig_skip p cfg h

/-- A pod with DNS policy None, used as the C6 witness input. -/
def c6Pod : Pod :=
  { name := "w", nspace := "d", uid := "wu"
    spec := { dnsPolicy := "None", dnsConfig := none, hostNetwork := false } }

/-- A DNS config used by the C6/C7 witnesses. -/
def c6Cfg : DNSConfig :=
  { nameservers := ["169.254.20.10", "10.96.0.10"]
    searches := ["d.svc.cluster.local", "svc.cluster.local", "cluster.local"]
    options := [{ name := "ndots", value := "3" }] }

/-- Witness for C6: the skip hypothesis holds for c6Pod (policy None)
and injection leaves it unchanged. -/
theorem injectDNSConfig_skip_noop_witness :
    c6Pod.spec.dnsPolicy = dnsNone ∧
    injectDNSConfig (some c6Pod) c6Cfg = .ok (some c6Pod) :=
  ⟨by decide, injectDNSConfig_skip_noop c6Pod c6Cfg (Or.inr (Or.inl (by decide)))⟩

/-- Claim C7: injectDNSConfig is idempotent: if a first run carries the
working copy from state pod to state s1, a second run on s1 is a no-op
returning s1 again (after an injecting first run the DNS config field
is non-null, so the second run skips). -/
theorem injectDNSConfig_idempotent (pod s1 : Option Pod) (cfg : DNSConfig)
    (h : injectDNSConfig pod cfg = .ok s1) :
    injectDNSConfig s1 cfg = .ok s1 := by
  cases pod with
  | none =>
    simp only [injectDNSConfig, Except.ok.injEq] at h
    subst h
    rfl
  | some p =>
    simp only [injectDNSConfig] at h
    split_ifs at h with h1 h2 h3
    · simp only [Except.ok.injEq] at h
      subst h
      exact injectDNSConfig_skip p cfg (Or.inl h1)
    · simp only [Except.ok.injEq] at h
      subst h
      exact injectDNSConfig_skip p cfg (Or.inr (Or.inl h2))
    · simp only [Except.ok.injEq] at h
      subst h
      exact injectDNSConfig_skip p cfg (Or.inr (Or.inr h3))
    · simp only [Except.ok.injEq] at h
      subst h
      exact injectDNSConfig_skip _ cfg (Or.inl rfl)

/-- A bare pod that the C7 witness injects into. -/
def c7Pod : Pod :=
  { name := "v", nspace := "d", uid := "vu"
    spec := { dnsPolicy := "", dnsConfig := none, hostNetwork := false } }

/-- The pod state after injecting c6Cfg into c7Pod. -/
def c7PodAfter : Pod :=
  { name := "v", nspace := "d", uid := "vu"
    spec :=
      { dnsPolicy := "None"
        dnsConfig := some
          { nameservers := ["169.254.20.10", "10.96.0.10"]
            searches := ["d.svc.cluster.local", "svc.cluster.local", "cluster.local"]
            options := [{ name := "ndots", value := some "3" }] }
        hostNetwork := false } }

/-- Witness for C7: a concrete first run on c7Pod (which injects), and
the second run on the resulting state is a no-op. -/
theorem injectDNSConfig_idempotent_witness :
    injectDNSConfig (some c7Pod) c6Cfg = .ok (some c7PodAfter) ∧
    injectDNSConfig (some c7PodAfter) c6Cfg = .ok (some c7PodAfter) := by
  have h1 : injectDNSConfig (some c7Pod) c6Cfg = .ok (some c7PodAfter) := by rfl
  exact ⟨h1, injectDNSConfig_idempotent _ _ _ h1⟩

/-- String concatenation is associative. -/
theorem strAppend_assoc (a b c : String) : a ++ b ++ c = a ++ (b ++ c) := by
  cases a with
  | mk as =>
    cases b with
    | mk bs =>
      cases c with
      | mk cs =>
        show String.mk (as ++ bs ++ cs) = String.mk (as ++ (bs ++ cs))
        rw [List.append_assoc]

/-- Every response of the V1 engine is the plain allow, a parse-failure
denial, or an allow carrying a JSON patch. -/
theorem V1_shape (s : Config) (req : AdmissionRequest) :
    V1.processAdmissionRequest s req = { uid := req.uid, allowed := true } ∨
    (∃ e, V1.processAdmissionRequest s req =
      createErrorResponse req.uid ("Failed to parse pod: " ++ e)) ∨
    (∃ patch, V1.processAdmissionRequest s req =
      { uid := req.uid, allowed := true,
        patch := some patch, patchType := some patchTypeJSONPatch }) := by
  simp only [V1.processAdmissionRequest]
  split_ifs with h1 h2
  · exact Or.inl rfl
  · exact Or.inl rfl
  · split
    · exact Or.inr (Or.inl ⟨_, rfl⟩)
    · rename_i pod heq
      split
      · rename_i e heq2
        exact absurd heq2 (injectDNSConfig_ne_error _ _ _)
      · exact Or.inr (Or.inr ⟨_, rfl⟩)

/-- Every response of the V0 engine is the plain allow, a parse-failure
denial, or an allow carrying a JSON patch. -/
theorem V0_shape (s : Config) (req : AdmissionRequest) :
    V0.processAdmissionRequest s req = { uid := req.uid, allowed := true } ∨
    (∃ e, V0.processAdmissionRequest s req =
      createErrorResponse req.uid ("Failed to parse pod: " ++ e)) ∨
    (∃ patch, V0.processAdmissionRequest s req =
      { uid := req.uid, allowed := true,
        patch := some patch, patchType := some patchTypeJSONPatch }) := by
  simp only [V0.processAdmissionRequest]
  split_ifs with h1 hC hU
  · exact Or.inl rfl
  · split
    · exact Or.inr (Or.inl ⟨_, rfl⟩)
    · rename_i pod heq
      split
      · rename_i e heq2
        exact absurd heq2 (injectDNSConfig_ne_error _ _ _)
      · exact Or.inr (Or.inr ⟨_, rfl⟩)
  · split
    · exact Or.inr (Or.inl ⟨_, rfl⟩)
    · rename_i pod heq
      split
      · exact Or.inr (Or.inl ⟨_, rfl⟩)
      · exact Or.inr (Or.inr ⟨_, rfl⟩)
  · split
    · exact Or.inr (Or.inl ⟨_, rfl⟩)
    · exact Or.inl rfl

/-- Claim C4: for every request whose kind is not Pod or resource is
not pods, and for every Pod request whose operation is neither Create
nor Update, the V1 engine (the variant server.go invokes) returns the
unconditional allow with no patch, for every raw object content
whatsoever — in particular the raw object is never parsed there. -/
theorem scope_purity (s : Config) (req : AdmissionRequest)
    (h : (req.kind ≠ "Pod" ∨ req.resource ≠ "pods") ∨
         (req.operation ≠ opCreate ∧ req.operation ≠ opUpdate)) :
    V1.processAdmissionRequest s req = { uid := req.uid, allowed := true } := by
  simp only [V1.processAdmissionRequest]
  split_ifs with h1 h2
  · rfl
  · rfl
  · rcases h with h | h
    · exact absurd h h1
    · exact absurd h h2

/-- A Pod request with a non-Create/Update operation and a malformed
raw object, the C4 witness input. -/
def c4Req : AdmissionRequest :=
  { uid := "u4", kind := "Pod", resource := "pods", operation := "DELETE"
    nspace := "d"
    object := some (.malformed "garbage")
    oldObject := some (.malformed "garbage") }

/-- Witness for C4: the DELETE request with malformed raw content is
allowed with no patch. -/
theorem scope_purity_witness :
    V1.processAdmissionRequest cfgW c4Req = { uid := "u4", allowed := true } :=
  scope_purity cfgW c4Req (Or.inr (by decide))

/-- Claim C5: a Pod Create or Update request whose raw object fails to
deserialize is denied via createErrorResponse with code 400 and a
message naming the parse failure; and (totality) every V1 response is
either an allow or a code-400 denial — no other failure escapes. -/
theorem parse_failure_denial :
    (∀ (s : Config) (req : AdmissionRequest) (e : String),
      req.kind = "Pod" → req.resource = "pods" →
      (req.operation = opCreate ∨ req.operation = opUpdate) →
      req.object = some (.malformed e) →
      V1.processAdmissionRequest s req =
        createErrorResponse req.uid
          ("Failed to parse pod: failed to unmarshal pod object: " ++ e)) ∧
    (∀ (s : Config) (req : AdmissionRequest),
      (V1.processAdmissionRequest s req).allowed = true ∨
      ∃ m, (V1.processAdmissionRequest s req).result = some { code := 400, message := m }) := by
  constructor
  · intro s req e hk hr hop hobj
    have h1 : ¬(req.kind ≠ "Pod" ∨ req.resource ≠ "pods") := by simp [hk, hr]
    have h2 : ¬(req.operation ≠ opCreate ∧ req.operation ≠ opUpdate) := by
      rcases hop with h | h
      · exact fun hc => hc.1 h
      · exact fun hc => hc.2 h
    have hp : parsePodFromRequest req =
        .error ("failed to unmarshal pod object: " ++ e) := by
      simp [parsePodFromRequest, hobj]
    simp only [V1.processAdmissionRequest, if_neg h1, if_neg h2, hp]
    rw [← strAppend_assoc]
    rfl
  · intro s req
    rcases V1_shape s req with h | ⟨e, h⟩ | ⟨patch, h⟩ <;> rw [h]
    · exact Or.inl rfl
    · exact Or.inr ⟨_, rfl⟩
    · exact Or.inl rfl

/-- A Pod Create request whose raw object is malformed, the C5 witness
input. -/
def c5Req : AdmissionRequest :=
  { uid := "u5", kind := "Pod", resource := "pods", operation := opCreate
    nspace := "d"
    object := some (.malformed "invalid character")
    oldObject := none }

/-- Witness for C5: the malformed Create request is denied with code
400 and a message naming the parse failure. -/
theorem parse_failure_denial_witness :
    V1.processAdmissionRequest cfgW c5Req =
      createErrorResponse "u5"
        ("Failed to parse pod: failed to unmarshal pod object: " ++ "invalid character") ∧
    ((V1.processAdmissionRequest cfgW c5Req).allowed = true ∨
      ∃ m, (V1.processAdmissionRequest cfgW c5Req).result = some { code := 400, message := m }) :=
  ⟨parse_failure_denial.1 cfgW c5Req "invalid character" rfl rfl (Or.inl rfl) rfl,
   parse_failure_denial.2 cfgW c5Req⟩

/-- Claim C8: every response either engine variant produces echoes the
request identifier, a denied response carries no patch and no patch
type, and a response carrying a patch is allowed. -/
theorem response_invariant (s : Config) (req : AdmissionRequest) (r : AdmissionResponse)
    (h : r = V0.processAdmissionRequest s req ∨ r = V1.processAdmissionRequest s req) :
    r.uid = req.uid ∧
    (r.allowed = false → r.patch = none ∧ r.patchType = none) ∧
    (r.patch.isSome = true → r.allowed = true) := by
  rcases h with rfl | rfl
  · rcases V0_shape s req with h | ⟨e, h⟩ | ⟨patch, h⟩ <;>
      rw [h] <;> simp [createErrorResponse]
  · rcases V1_shape s req with h | ⟨e, h⟩ | ⟨patch, h⟩ <;>
      rw [h] <;> simp [createErrorResponse]

/-- Witness for C8: the invariant instantiated at a concrete request
through the V1 engine. -/
theorem response_invariant_witness :
    (V1.processAdmissionRequest cfgW c4Req).uid = c4Req.uid ∧
    ((V1.processAdmissionRequest cfgW c4Req).allowed = false →
      (V1.processAdmissionRequest cfgW c4Req).patch = none ∧
      (V1.processAdmissionRequest cfgW c4Req).patchType = none) ∧
    ((V1.processAdmissionRequest cfgW c4Req).patch.isSome = true →
      (V1.processAdmissionRequest cfgW c4Req).allowed = true) :=
  response_invariant cfgW c4Req _ (Or.inr rfl)

/-- Claim C10: injectDNSConfig never returns an error for any pod
pointer and DNS config, and consequently every denial either engine
variant emits is a parse-failure denial — the branch reporting a failed
DNS injection is unreachable. -/
theorem injectDNSConfig_total :
    (∀ (pod : Option Pod) (cfg : DNSConfig), ∃ v, injectDNSConfig pod cfg = .ok v) ∧
    (∀ (s : Config) (req : AdmissionRequest),
      (V1.processAdmissionRequest s req).allowed = false →
      ∃ e, (V1.processAdmissionRequest s req).result =
        some { code := 400, message := "Failed to parse pod: " ++ e }) ∧
    (∀ (s : Config) (req : AdmissionRequest),
      (V0.processAdmissionRequest s req).allowed = false →
      ∃ e, (V0.processAdmissionRequest s req).result =
        some { code := 400, message := "Failed to parse pod: " ++ e }) := by
  refine ⟨?_, ?_, ?_⟩
  · intro pod cfg
    cases h : injectDNSConfig pod cfg with
    | error e => exact absurd h (injectDNSConfig_ne_error _ _ _)
    | ok v => exact ⟨v, rfl⟩
  · intro s req hall
    rcases V1_shape s req with h | ⟨e, h⟩ | ⟨patch, h⟩ <;> rw [h] at hall ⊢
    · simp at hall
    · exact ⟨e, rfl⟩
    · simp at hall
  · intro s req hall
    rcases V0_shape s req with h | ⟨e, h⟩ | ⟨patch, h⟩ <;> rw [h] at hall ⊢
    · simp at hall
    · exact ⟨e, rfl⟩
    · simp at hall

/-- Witness for C10: injection succeeds at a concrete pod, and the
concrete parse-failure denial of c5Req carries a parse message. -/
theorem injectDNSConfig_total_witness :
    (∃ v, injectDNSConfig (some c6Pod) c6Cfg = .ok v) ∧
    (∃ e, (V1.processAdmissionRequest cfgW c5Req).result =
      some { code := 400, message := "Failed to parse pod: " ++ e }) :=
  ⟨injectDNSConfig_total.1 (some c6Pod) c6Cfg,
   injectDNSConfig_total.2.1 cfgW c5Req (by rfl)⟩

/-- Claim C3: a Create request of a bare pod (no DNS policy, no DNS
config, no host network) in namespace ns, under a config whose cluster
domain is cluster.local, yields an allow whose patch is exactly two
operations in order: replace the DNS policy with "None", then add the
DNS config with nameservers [node-local address, cluster DNS address],
the derived searches ns.svc.cluster.local, svc.cluster.local,
cluster.local, and the configured resolver options (V0 variant, whose
Create branch derives the search domains). -/
theorem create_bare_pod_patch (s : Config) (u podName podUid ns rns : String)
    (old : Option RawObject) (hdom : s.clusterDomain = "cluster.local") :
    V0.processAdmissionRequest s
      { uid := u, kind := "Pod", resource := "pods", operation := opCreate
        nspace := rns
        object := some (.wellFormed
          { name := podName, nspace := ns, uid := podUid
            spec := { dnsPolicy := "", dnsConfig := none, hostNetwork := false } })
        oldObject := old } =
    { uid := u, allowed := true
      patch := some
        [{ op := "replace", path := "/spec/dnsPolicy", value := .str "None" },
         { op := "add", path := "/spec/dnsConfig", value := .config
            { nameservers := [s.nodeLocalDNSAddress, s.clusterDNSAddress]
              searches := [ns ++ ".svc.cluster.local", "svc.cluster.local", "cluster.local"]
              options := s.dnsOptions.map fun o => { name := o.name, value := some o.value } } }]
      patchType := some patchTypeJSONPatch } := by
  have hs : V0.domains s
      { name := podName, nspace := ns, uid := podUid
        spec := { dnsPolicy := "", dnsConfig := none, hostNetwork := false } } =
      [ns ++ ".svc.cluster.local", "svc.cluster.local", "cluster.local"] := by
    simp only [V0.domains, hdom]
    rw [strAppend_assoc]
    rfl
  rw [← hs]
  rfl

/-- The C3 witness input: a Create request of a bare pod in namespace ns. -/
def c3Req : AdmissionRequest :=
  { uid := "u3", kind := "Pod", resource := "pods", operation := opCreate
    nspace := "ns"
    object := some (.wellFormed
      { name := "mypod", nspace := "ns", uid := "pu3"
        spec := { dnsPolicy := "", dnsConfig := none, hostNetwork := false } })
    oldObject := none }

/-- Witness for C3: the concrete bare-pod Create request under cfgW
yields exactly the two-operation patch. -/
theorem create_bare_pod_patch_witness :
    V0.processAdmissionRequest cfgW c3Req =
    { uid := "u3", allowed := true
      patch := some
        [{ op := "replace", path := "/spec/dnsPolicy", value := .str "None" },
         { op := "add", path := "/spec/dnsConfig", value := .config
            { nameservers := ["169.254.20.10", "10.96.0.10"]
              searches := ["ns.svc.cluster.local", "svc.cluster.local", "cluster.local"]
              options := [{ name := "ndots", value := some "3" }] } }]
      patchType := some patchTypeJSONPatch } :=
  create_bare_pod_patch cfgW "u3" "mypod" "pu3" "ns" "ns" none rfl

/-- Claim C9: every inbound /inject request failing transport-level
validation — wrong method, wrong content type, unparseable body, nil
inner request, or empty request UID — gets a non-200 status with an
error body of shape (code, message), and the decision engine is never
invoked. -/
theorem transport_validation (s : Config) (r : HttpRequest)
    (h : r.method ≠ "POST" ∨ r.contentType ≠ "application/json" ∨
         r.body = ReviewBody.malformed ∨ r.body = ReviewBody.review none ∨
         (∃ req, r.body = ReviewBody.review (some req) ∧ req.uid = "")) :
    (∃ code msg, HandleInject s r = .httpError code { code := code, message := msg } ∧
      code ≠ 200) ∧
    (∀ resp, HandleInject s r ≠ .admitted resp) := by
  have key : ∃ code msg,
      HandleInject s r = .httpError code { code := code, message := msg } ∧ code ≠ 200 := by
    simp only [HandleInject, writeErrorResponse]
    split_ifs with h1 h2
    · exact ⟨405, "Only POST method is allowed", rfl, by decide⟩
    · exact ⟨400, "Content-Type must be application/json", rfl, by decide⟩
    · rcases h with h | h | h | h | ⟨req, hb, hu⟩
      · exact absurd h h1
      · exact absurd h h2
      · rw [h]
        exact ⟨400, "Failed to parse admission review: failed to unmarshal admission review",
          rfl, by decide⟩
      · rw [h]
        exact ⟨400, "Failed to parse admission review: admission review request is nil",
          rfl, by decide⟩
      · have hq : parseAdmissionReview r.body =
            .error "admission review request UID is empty" := by
          rw [hb]
          simp [parseAdmissionReview, hu]
        rw [hq]
        exact ⟨400, "Failed to parse admission review: admission review request UID is empty",
          rfl, by decide⟩
  refine ⟨key, ?_⟩
  rcases key with ⟨code, msg, hk, _⟩
  intro resp
  rw [hk]
  simp

/-- A GET request to /inject, the C9 witness input. -/
def c9Req : HttpRequest :=
  { method := "GET", contentType := "application/json", body := .malformed }

/-- Witness for C9: the GET request is rejected with a non-200 status
and never reaches the engine. -/
theorem transport_validation_witness :
    (∃ code msg, HandleInject cfgW c9Req = .httpError code { code := code, message := msg } ∧
      code ≠ 200) ∧
    (∀ resp, HandleInject cfgW c9Req ≠ .admitted resp) :=
  transport_validation cfgW c9Req (Or.inl (by decide))

end NodeLocalDNS
